import Mathlib

/-!
Shallow embedding of `src/main.py` (azure_openai_responses).

The script's only logic is a poll-until-terminal loop plus a best-effort
cleanup routine and a `main` driver with a single try/except.  We model each
function as a pure Lean function that returns the list of observable effects
(API calls, prints, delays) performed in program order, together with its
result.  Outcomes of the external API are supplied by an `Env` record; the
loop is given fuel so that nontermination shows up as the `running` outcome
for every fuel value.  Python exceptions are modeled with `Except`.
-/

namespace AzureVS

/-- Observable effects of the script, recorded in program order. -/
inductive Event where
  | filesCreate : Event
  | vectorStoreCreate (name : String) : Event
  | vsFilesCreate (vsId fileId : String) : Event
  | pollCheck (fileId vsId : String) : Event
  | sleep (seconds : Nat) : Event
  | print (msg : String) : Event
  | vsDelete (id : String) : Event
  | responseDelete (id : String) : Event
  | fileDelete (id : String) : Event
  | responsesCreate (vsId : String) : Event
  deriving DecidableEq, Repr

/-- Outcomes of the external service and of each remote deletion, plus the
configuration read from the environment (`UPLOADED_FILE_ID`). -/
structure Env where
  /-- id returned by `files.create` when an upload happens -/
  newFileId : String
  /-- id returned by `vector_stores.create` -/
  vsId : String
  /-- id returned by `vector_stores.files.create` -/
  vsFileId : String
  /-- status reported by the k-th `vector_stores.files.poll` call -/
  statuses : Nat → String
  /-- `last_error()` payload reported on a failed batch -/
  lastError : String
  /-- id of the response returned by `responses.create` -/
  responseId : String
  /-- JSON dump of the response object -/
  responseJson : String
  /-- whether `vector_stores.delete` raises for a given id -/
  vsDeleteFails : String → Bool
  /-- whether `responses.delete` raises for a given id -/
  respDeleteFails : String → Bool
  /-- whether `files.delete` raises for a given id -/
  fileDeleteFails : String → Bool
  /-- whether `responses.create` raises -/
  responsesCreateFails : Bool
  /-- value of the `UPLOADED_FILE_ID` environment variable ("" if unset) -/
  initialFileId : String

/-- First loop of `cleanup` (src/main.py lines 97-102): per vector-store id,
print, attempt the deletion, and on failure catch and log. -/
def deleteVectorStores (env : Env) : List String → List Event
  | [] => []
  | i :: rest =>
      Event.print s!"Deleting vector store {i}..." :: Event.vsDelete i ::
        (if env.vsDeleteFails i then [Event.print s!"Error deleting vector store {i}"] else [])
        ++ deleteVectorStores env rest

/-- Second loop of `cleanup` (src/main.py lines 104-109): per response id,
print, attempt the deletion, and on failure catch and log. -/
def deleteResponses (env : Env) : List String → List Event
  | [] => []
  | i :: rest =>
      Event.print s!"Deleting response {i}..." :: Event.responseDelete i ::
        (if env.respDeleteFails i then [Event.print s!"Error deleting response {i}"] else [])
        ++ deleteResponses env rest

/-- `cleanup` (src/main.py lines 93-113).  The two loops guard each deletion
with try/except; the final `files.delete(UPLOADED_FILE_ID)` on line 112 is
not guarded, so a failure there raises out of the function (modeled by
`Except.error`) and the final "Cleanup completed." print does not happen. -/
def cleanup (env : Env) (uploadedFileId : String) (vsIds respIds : List String) :
    List Event × Except String Unit :=
  let evs := deleteVectorStores env vsIds ++ deleteResponses env respIds
      ++ [Event.print "Deleting uploaded file...", Event.fileDelete uploadedFileId]
  if env.fileDeleteFails uploadedFileId then
    (evs, Except.error s!"files.delete raised for {uploadedFileId}")
  else
    (evs ++ [Event.print "Cleanup completed."], Except.ok ())

/-- Outcome of the polling loop of `upload_to_vector_store`. -/
inductive PollOutcome where
  /-- status "completed": the loop breaks -/
  | completed : PollOutcome
  /-- status "failed": cleanup ran to completion and the function returned None -/
  | returnedNone : PollOutcome
  /-- status "failed" and the cleanup's file deletion raised -/
  | raised (msg : String) : PollOutcome
  /-- fuel exhausted: the real loop is still polling -/
  | running : PollOutcome
  deriving DecidableEq, Repr

/-- The `while True` polling loop (src/main.py lines 74-88).  `k` is the
index of the next status check; each iteration issues one poll call, then
branches on the exact strings "completed" and "failed"; any other status
prints, sleeps 5 seconds, and loops. -/
def pollLoop (env : Env) (uploadedFileId : String) (k : Nat) : Nat → List Event × PollOutcome
  | 0 => ([], PollOutcome.running)
  | fuel + 1 =>
      let s := env.statuses k
      if s = "completed" then
        ([Event.pollCheck env.vsFileId env.vsId,
          Event.print "File batch completed successfully."], PollOutcome.completed)
      else if s = "failed" then
        let cl := cleanup env uploadedFileId [env.vsId] []
        (Event.pollCheck env.vsFileId env.vsId ::
           Event.print s!"File batch failed. {env.lastError}" :: cl.1,
         match cl.2 with
         | Except.ok _ => PollOutcome.returnedNone
         | Except.error e => PollOutcome.raised e)
      else
        let rest := pollLoop env uploadedFileId (k + 1) fuel
        (Event.pollCheck env.vsFileId env.vsId ::
           Event.print s!"File batch status: {s}" :: Event.sleep 5 :: rest.1,
         rest.2)

/-- What `upload_to_vector_store` produced for its caller. -/
inductive UpResult where
  /-- returned the created vector store (its id) -/
  | store (vsId : String) : UpResult
  /-- bare `return` on the failed-batch path: caller receives None -/
  | returnedNone : UpResult
  /-- an exception propagated out of the function -/
  | raised (msg : String) : UpResult
  /-- the polling loop was still running when fuel ran out -/
  | running : UpResult
  deriving DecidableEq, Repr

/-- Result record of `upload_to_vector_store`: effect trace, the value of the
global `UPLOADED_FILE_ID` after the call, and what the caller receives. -/
structure UploadResult where
  trace : List Event
  newGlobal : String
  result : UpResult
  deriving DecidableEq, Repr

/-- `upload_to_vector_store` (src/main.py lines 31-90).  If the global
`UPLOADED_FILE_ID` is empty ("" is falsy) the file is uploaded and the new id
stored into the global; otherwise the existing id is used.  Then the vector
store is created, the file is attached as a batch, and the polling loop runs. -/
def upload_to_vector_store (env : Env) (uploadedFileId0 : String)
    (vectorStoreName : String) (fuel : Nat) : UploadResult :=
  let fileStep :=
    if uploadedFileId0 = "" then
      (([Event.filesCreate, Event.print s!"File ID: {env.newFileId}"] : List Event),
        env.newFileId)
    else
      (([Event.print s!"Using existing file ID: {uploadedFileId0}"] : List Event),
        uploadedFileId0)
  let fid := fileStep.2
  let createEvs : List Event :=
    [Event.vectorStoreCreate vectorStoreName,
     Event.print s!"Vector Store ID: {env.vsId}",
     Event.vsFilesCreate env.vsId fid]
  let poll := pollLoop env fid 0 fuel
  { trace := fileStep.1 ++ createEvs ++ poll.1,
    newGlobal := fid,
    result :=
      match poll.2 with
      | PollOutcome.completed => UpResult.store env.vsId
      | PollOutcome.returnedNone => UpResult.returnedNone
      | PollOutcome.raised e => UpResult.raised e
      | PollOutcome.running => UpResult.running }

/-- How `main` terminates. -/
inductive MainResult where
  /-- fell off the end normally -/
  | ok : MainResult
  /-- an uncaught exception escaped `main` -/
  | crashed (msg : String) : MainResult
  /-- still inside the polling loop when fuel ran out -/
  | running : MainResult
  deriving DecidableEq, Repr

/-- `main` (src/main.py lines 116-162).  The try block covers the upload and
the `responses.create` call; the final `cleanup(client, [vector_store.id],
[response.id])` on line 162 sits OUTSIDE the try block.  Consequently:
if the upload raised, `vector_store` is unbound there (NameError); if the
upload returned None, `vector_store.id` raises AttributeError both inside the
try (caught) and on line 162 (uncaught); if `responses.create` raised,
`response` is unbound on line 162 (NameError); and on the success path an
exception from `cleanup` itself is uncaught. -/
def main (env : Env) (fuel : Nat) : List Event × MainResult :=
  let up := upload_to_vector_store env env.initialFileId "Travel Brochure" fuel
  match up.result with
  | UpResult.running => (up.trace, MainResult.running)
  | UpResult.raised e =>
      (up.trace ++ [Event.print s!"An error occurred: {e}"],
       MainResult.crashed "NameError: vector_store is not defined")
  | UpResult.returnedNone =>
      (up.trace ++ [Event.print "An error occurred: NoneType has no attribute id"],
       MainResult.crashed "AttributeError: NoneType has no attribute id")
  | UpResult.store vsId =>
      if env.responsesCreateFails then
        (up.trace ++ [Event.responsesCreate vsId,
            Event.print "An error occurred: responses.create raised"],
         MainResult.crashed "NameError: response is not defined")
      else
        let cl := cleanup env up.newGlobal [vsId] [env.responseId]
        (up.trace ++ [Event.responsesCreate vsId, Event.print env.responseJson] ++ cl.1,
         match cl.2 with
         | Except.ok _ => MainResult.ok
         | Except.error e => MainResult.crashed e)

/-! ## Trace observations -/

/-- Is this event a status check (`vector_stores.files.poll`)? -/
def isPollCheck : Event → Bool
  | Event.pollCheck _ _ => true
  | _ => false

/-- Is this event a delay? -/
def isSleep : Event → Bool
  | Event.sleep _ => true
  | _ => false

/-- Is this event a file upload (`files.create`)? -/
def isFilesCreate : Event → Bool
  | Event.filesCreate => true
  | _ => false

/-- Is this event a remote deletion of any kind? -/
def isDelete : Event → Bool
  | Event.vsDelete _ => true
  | Event.responseDelete _ => true
  | Event.fileDelete _ => true
  | _ => false

/-- Number of status checks in a trace. -/
def countChecks (t : List Event) : Nat := (t.filter isPollCheck).length

/-- Number of delays in a trace. -/
def countSleeps (t : List Event) : Nat := (t.filter isSleep).length

/-- Number of file uploads in a trace. -/
def countUploads (t : List Event) : Nat := (t.filter isFilesCreate).length

/-- The subsequence of deletion attempts of a trace, in order. -/
def deleteEvents (t : List Event) : List Event := t.filter isDelete

/-- Is this event a vector-store deletion? -/
def isVsDelete : Event → Bool
  | Event.vsDelete _ => true
  | _ => false

/-- Is this event a response deletion? -/
def isResponseDelete : Event → Bool
  | Event.responseDelete _ => true
  | _ => false

/-- Is this event a file deletion? -/
def isFileDelete : Event → Bool
  | Event.fileDelete _ => true
  | _ => false

/-! ## Helper lemmas -/

lemma filter_deleteVectorStores (env : Env) (p : Event → Bool)
    (hp : ∀ s, p (Event.print s) = false) (l : List String) :
    (deleteVectorStores env l).filter p = (l.map Event.vsDelete).filter p := by
  induction l with
  | nil => rfl
  | cons i rest ih =>
      by_cases hf : env.vsDeleteFails i <;>
        simp [deleteVectorStores, hf, List.filter_append, List.filter_cons, hp, ih]

lemma filter_deleteResponses (env : Env) (p : Event → Bool)
    (hp : ∀ s, p (Event.print s) = false) (l : List String) :
    (deleteResponses env l).filter p = (l.map Event.responseDelete).filter p := by
  induction l with
  | nil => rfl
  | cons i rest ih =>
      by_cases hf : env.respDeleteFails i <;>
        simp [deleteResponses, hf, List.filter_append, List.filter_cons, hp, ih]

lemma filter_cleanup (env : Env) (fid : String) (vs rs : List String) (p : Event → Bool)
    (hp : ∀ s, p (Event.print s) = false) :
    ((cleanup env fid vs rs).1).filter p =
      (vs.map Event.vsDelete).filter p ++ (rs.map Event.responseDelete).filter p
        ++ (if p (Event.fileDelete fid) then [Event.fileDelete fid] else []) := by
  by_cases hf : env.fileDeleteFails fid <;>
    simp [cleanup, hf, List.filter_append, List.filter_cons, hp,
      filter_deleteVectorStores env p hp vs, filter_deleteResponses env p hp rs]

lemma cleanup_deleteEvents (env : Env) (fid : String) (vs rs : List String) :
    deleteEvents (cleanup env fid vs rs).1 =
      vs.map Event.vsDelete ++ rs.map Event.responseDelete ++ [Event.fileDelete fid] := by
  have h := filter_cleanup env fid vs rs isDelete (fun _ => rfl)
  rw [deleteEvents, h, List.filter_map, List.filter_map]
  simp [Function.comp_def, isDelete]

lemma cleanup_countChecks (env : Env) (fid : String) (vs rs : List String) :
    countChecks (cleanup env fid vs rs).1 = 0 := by
  have h := filter_cleanup env fid vs rs isPollCheck (fun _ => rfl)
  rw [countChecks, h, List.filter_map, List.filter_map]
  simp [Function.comp_def, isPollCheck]

lemma cleanup_countUploads (env : Env) (fid : String) (vs rs : List String) :
    countUploads (cleanup env fid vs rs).1 = 0 := by
  have h := filter_cleanup env fid vs rs isFilesCreate (fun _ => rfl)
  rw [countUploads, h, List.filter_map, List.filter_map]
  simp [Function.comp_def, isFilesCreate]

lemma cleanup_vsDelete_count (env : Env) (fid : String) (vs rs : List String) :
    ((cleanup env fid vs rs).1.filter isVsDelete).length = vs.length := by
  have h := filter_cleanup env fid vs rs isVsDelete (fun _ => rfl)
  rw [h, List.filter_map, List.filter_map]
  simp [Function.comp_def, isVsDelete]

lemma cleanup_responseDelete_count (env : Env) (fid : String) (vs rs : List String) :
    ((cleanup env fid vs rs).1.filter isResponseDelete).length = rs.length := by
  have h := filter_cleanup env fid vs rs isResponseDelete (fun _ => rfl)
  rw [h, List.filter_map, List.filter_map]
  simp [Function.comp_def, isResponseDelete]

lemma cleanup_fileDelete_count (env : Env) (fid : String) (vs rs : List String) :
    ((cleanup env fid vs rs).1.filter isFileDelete).length = 1 := by
  have h := filter_cleanup env fid vs rs isFileDelete (fun _ => rfl)
  rw [h, List.filter_map, List.filter_map]
  simp [Function.comp_def, isFileDelete]

lemma cleanup_mem_fileDelete (env : Env) (fid : String) (vs rs : List String) :
    Event.fileDelete fid ∈ (cleanup env fid vs rs).1 := by
  apply List.filter_subset' (p := isDelete)
  rw [← deleteEvents, cleanup_deleteEvents]
  simp

lemma cleanup_mem_vsDelete (env : Env) (fid : String) (vs rs : List String)
    (i : String) (hi : i ∈ vs) :
    Event.vsDelete i ∈ (cleanup env fid vs rs).1 := by
  apply List.filter_subset' (p := isDelete)
  rw [← deleteEvents, cleanup_deleteEvents]
  simp only [List.mem_append, List.mem_map]
  exact Or.inl (Or.inl ⟨i, hi, rfl⟩)

lemma cleanup_not_mem_responseDelete (env : Env) (fid : String) (vs : List String)
    (r : String) :
    Event.responseDelete r ∉ (cleanup env fid vs []).1 := by
  intro hmem
  have hd : Event.responseDelete r ∈ deleteEvents (cleanup env fid vs []).1 :=
    List.mem_filter.2 ⟨hmem, rfl⟩
  rw [cleanup_deleteEvents] at hd
  simp [List.mem_map] at hd

lemma cleanup_result (env : Env) (fid : String) (vs rs : List String) :
    (cleanup env fid vs rs).2 =
      if env.fileDeleteFails fid then Except.error s!"files.delete raised for {fid}"
      else Except.ok () := by
  by_cases hf : env.fileDeleteFails fid <;> simp [cleanup, hf]

lemma pollLoop_completed (env : Env) (fid : String) (k fuel : Nat)
    (h : env.statuses k = "completed") :
    pollLoop env fid k (fuel + 1) =
      ([Event.pollCheck env.vsFileId env.vsId,
        Event.print "File batch completed successfully."], PollOutcome.completed) := by
  simp [pollLoop, h]

lemma pollLoop_failed (env : Env) (fid : String) (k fuel : Nat)
    (h : env.statuses k = "failed") :
    pollLoop env fid k (fuel + 1) =
      (Event.pollCheck env.vsFileId env.vsId ::
         Event.print s!"File batch failed. {env.lastError}" ::
         (cleanup env fid [env.vsId] []).1,
       match (cleanup env fid [env.vsId] []).2 with
       | Except.ok _ => PollOutcome.returnedNone
       | Except.error e => PollOutcome.raised e) := by
  simp [pollLoop, h]

lemma pollLoop_other (env : Env) (fid : String) (k fuel : Nat)
    (h1 : env.statuses k ≠ "completed") (h2 : env.statuses k ≠ "failed") :
    pollLoop env fid k (fuel + 1) =
      (Event.pollCheck env.vsFileId env.vsId ::
         Event.print s!"File batch status: {env.statuses k}" :: Event.sleep 5 ::
         (pollLoop env fid (k + 1) fuel).1,
       (pollLoop env fid (k + 1) fuel).2) := by
  simp [pollLoop, h1, h2]

lemma pollLoop_checks_pos (env : Env) (fid : String) (k fuel : Nat) :
    1 ≤ countChecks (pollLoop env fid k (fuel + 1)).1 := by
  by_cases h1 : env.statuses k = "completed"
  · rw [pollLoop_completed env fid k fuel h1]
    simp [countChecks, List.filter_cons, isPollCheck]
  · by_cases h2 : env.statuses k = "failed"
    · rw [pollLoop_failed env fid k fuel h2]
      simp [countChecks, List.filter_cons, isPollCheck]
    · rw [pollLoop_other env fid k fuel h1 h2]
      simp [countChecks, List.filter_cons, isPollCheck]

lemma pollLoop_countUploads (env : Env) (fid : String) (fuel : Nat) :
    ∀ k, countUploads (pollLoop env fid k fuel).1 = 0 := by
  induction fuel with
  | zero => intro k; rfl
  | succ n ih =>
      intro k
      by_cases h1 : env.statuses k = "completed"
      · rw [pollLoop_completed env fid k n h1]; rfl
      · by_cases h2 : env.statuses k = "failed"
        · rw [pollLoop_failed env fid k n h2]
          have hc := cleanup_countUploads env fid [env.vsId] []
          simp [countUploads, List.filter_cons, isFilesCreate] at hc ⊢
          exact hc
        · rw [pollLoop_other env fid k n h1 h2]
          have hr := ih (k + 1)
          simp [countUploads, List.filter_cons, isFilesCreate] at hr ⊢
          exact hr

/-! ## Concrete environments used as witnesses and counterexamples -/

/-- Base environment: every remote call succeeds, the batch completes on the
first check, and no pre-existing file id is configured. -/
def baseEnv : Env where
  newFileId := "file-1"
  vsId := "vs-1"
  vsFileId := "vsf-1"
  statuses := fun _ => "completed"
  lastError := "server error"
  responseId := "resp-1"
  responseJson := "response json"
  vsDeleteFails := fun _ => false
  respDeleteFails := fun _ => false
  fileDeleteFails := fun _ => false
  responsesCreateFails := false
  initialFileId := ""

/-- The batch completes on the first check. -/
def envDone : Env := baseEnv

/-- The batch reports "failed" on every check; all deletions succeed. -/
def envFailed : Env := { baseEnv with statuses := fun _ => "failed" }

/-- The batch fails and `files.delete` raises during the cleanup. -/
def envRaise : Env :=
  { baseEnv with statuses := fun _ => "failed", fileDeleteFails := fun _ => true }

/-- Every deletion raises. -/
def envDelFail : Env :=
  { baseEnv with vsDeleteFails := fun _ => true, respDeleteFails := fun _ => true,
                 fileDeleteFails := fun _ => true }

/-- The batch reports "in_progress" forever. -/
def envLoop : Env := { baseEnv with statuses := fun _ => "in_progress" }

/-- The batch reports the vendor terminal status "cancelled" forever. -/
def envCancel : Env := { baseEnv with statuses := fun _ => "cancelled" }

/-- The batch reports "in_progress" twice, then "completed". -/
def envC7 : Env :=
  { baseEnv with statuses := fun k => if k < 2 then "in_progress" else "completed" }

lemma envLoop_nonterminal :
    ∀ j, envLoop.statuses j ≠ "completed" ∧ envLoop.statuses j ≠ "failed" := by
  intro j
  constructor <;> simp [envLoop, baseEnv]

lemma deleteVectorStores_mem_err (env : Env) (l : List String) (i : String)
    (hi : i ∈ l) (hf : env.vsDeleteFails i = true) :
    Event.print s!"Error deleting vector store {i}" ∈ deleteVectorStores env l := by
  induction l with
  | nil => cases hi
  | cons j rest ih =>
      rcases List.mem_cons.1 hi with h | h
      · subst h
        simp [deleteVectorStores, hf, List.mem_cons, List.mem_append]
      · by_cases hj : env.vsDeleteFails j <;>
          simp [deleteVectorStores, hj, List.mem_cons, List.mem_append, ih h]

lemma deleteResponses_mem_err (env : Env) (l : List String) (i : String)
    (hi : i ∈ l) (hf : env.respDeleteFails i = true) :
    Event.print s!"Error deleting response {i}" ∈ deleteResponses env l := by
  induction l with
  | nil => cases hi
  | cons j rest ih =>
      rcases List.mem_cons.1 hi with h | h
      · subst h
        simp [deleteResponses, hf, List.mem_cons, List.mem_append]
      · by_cases hj : env.respDeleteFails j <;>
          simp [deleteResponses, hj, List.mem_cons, List.mem_append, ih h]

lemma cleanup_mem_of_dvs (env : Env) (fid : String) (vs rs : List String)
    (e : Event) (he : e ∈ deleteVectorStores env vs) :
    e ∈ (cleanup env fid vs rs).1 := by
  by_cases hf : env.fileDeleteFails fid <;>
    simp [cleanup, hf, List.mem_append, he]

lemma cleanup_mem_of_drs (env : Env) (fid : String) (vs rs : List String)
    (e : Event) (he : e ∈ deleteResponses env rs) :
    e ∈ (cleanup env fid vs rs).1 := by
  by_cases hf : env.fileDeleteFails fid <;>
    simp [cleanup, hf, List.mem_append, he]

/-! ## Claims -/

/-- C1 (counterexample): on a run whose file-batch poll reports "failed",
the failure-triggered cleanup DOES invoke the file-deletion operation on the
uploaded file, contrary to the claim that the file deletion is not invoked. -/
theorem claim_C1_counterexample :
    Event.fileDelete "file-1" ∈
      (upload_to_vector_store envFailed "" "Travel Brochure" 1).trace := by decide

/-- C1 (amended): when the polled file-batch job reports "failed", the
failure-triggered cleanup deletes the vector store that was created and
attempts no response deletions, but it ALSO attempts deletion of the
uploaded file, because `cleanup` deletes the global file id unconditionally. -/
theorem claim_C1 (env : Env) (fid : String) (k fuel : Nat)
    (h : env.statuses k = "failed") :
    Event.vsDelete env.vsId ∈ (pollLoop env fid k (fuel + 1)).1 ∧
    Event.fileDelete fid ∈ (pollLoop env fid k (fuel + 1)).1 ∧
    ∀ r, Event.responseDelete r ∉ (pollLoop env fid k (fuel + 1)).1 := by
  rw [pollLoop_failed env fid k fuel h]
  refine ⟨?_, ?_, ?_⟩
  · simp only [List.mem_cons]
    exact Or.inr (Or.inr (cleanup_mem_vsDelete env fid [env.vsId] [] env.vsId (by simp)))
  · simp only [List.mem_cons]
    exact Or.inr (Or.inr (cleanup_mem_fileDelete env fid [env.vsId] []))
  · intro r
    simp only [List.mem_cons, not_or]
    exact ⟨by simp, by simp, cleanup_not_mem_responseDelete env fid [env.vsId] r⟩

/-- C1 witness: the amended statement at a concrete failing run. -/
theorem claim_C1_witness :
    envFailed.statuses 0 = "failed" ∧
    Event.vsDelete "vs-1" ∈ (pollLoop envFailed "file-1" 0 1).1 ∧
    Event.fileDelete "file-1" ∈ (pollLoop envFailed "file-1" 0 1).1 :=
  ⟨rfl, (claim_C1 envFailed "file-1" 0 0 rfl).1, (claim_C1 envFailed "file-1" 0 0 rfl).2.1⟩

/-- C2 (counterexample): a failure of the uploaded-file deletion inside
cleanup is not caught: cleanup propagates the exception to its caller. -/
theorem claim_C2_counterexample :
    (cleanup envDelFail "file-1" ["vs-1"] ["resp-1"]).2 =
      Except.error "files.delete raised for file-1" := rfl

/-- C2 (amended): failures deleting vector stores and responses are caught
and logged and do not prevent the remaining deletions in the same cleanup
call (every listed id is still attempted); the uploaded-file deletion,
however, is not guarded, so its failure — and only its failure — propagates
to the caller. -/
theorem claim_C2 (env : Env) (fid : String) (vsIds respIds : List String) :
    (∀ i ∈ vsIds, env.vsDeleteFails i = true →
        Event.print s!"Error deleting vector store {i}" ∈ (cleanup env fid vsIds respIds).1) ∧
    (∀ i ∈ respIds, env.respDeleteFails i = true →
        Event.print s!"Error deleting response {i}" ∈ (cleanup env fid vsIds respIds).1) ∧
    ((cleanup env fid vsIds respIds).1.filter isVsDelete).length = vsIds.length ∧
    ((cleanup env fid vsIds respIds).1.filter isResponseDelete).length = respIds.length ∧
    (cleanup env fid vsIds respIds).2 =
      (if env.fileDeleteFails fid then Except.error s!"files.delete raised for {fid}"
       else Except.ok ()) := by
  refine ⟨?_, ?_, cleanup_vsDelete_count env fid vsIds respIds,
    cleanup_responseDelete_count env fid vsIds respIds, cleanup_result env fid vsIds respIds⟩
  · intro i hi hf
    exact cleanup_mem_of_dvs env fid vsIds respIds _
      (deleteVectorStores_mem_err env vsIds i hi hf)
  · intro i hi hf
    exact cleanup_mem_of_drs env fid vsIds respIds _
      (deleteResponses_mem_err env respIds i hi hf)

/-- C2 witness: the amended statement at a concrete cleanup call in which
every deletion raises. -/
theorem claim_C2_witness :
    envDelFail.vsDeleteFails "vs-1" = true ∧
    Event.print "Error deleting vector store vs-1" ∈
      (cleanup envDelFail "file-1" ["vs-1"] ["resp-1"]).1 ∧
    ((cleanup envDelFail "file-1" ["vs-1"] ["resp-1"]).1.filter isResponseDelete).length = 1 :=
  ⟨rfl,
    (claim_C2 envDelFail "file-1" ["vs-1"] ["resp-1"]).1 "vs-1" (by simp) rfl,
    (claim_C2 envDelFail "file-1" ["vs-1"] ["resp-1"]).2.2.2.1⟩

/-- C10: cleanup attempts deletions in a fixed order — all given vector
stores first, then all given responses, then the uploaded file — and the
uploaded-file deletion is attempted exactly once per call, unconditionally,
even when both id lists are empty. -/
theorem claim_C10 (env : Env) (fid : String) (vsIds respIds : List String) :
    deleteEvents (cleanup env fid vsIds respIds).1 =
      vsIds.map Event.vsDelete ++ respIds.map Event.responseDelete ++
        [Event.fileDelete fid] ∧
    ((cleanup env fid vsIds respIds).1.filter isFileDelete).length = 1 :=
  ⟨cleanup_deleteEvents env fid vsIds respIds, cleanup_fileDelete_count env fid vsIds respIds⟩

/-- C4: on a poll result with status "completed" the loop returns success
immediately — the iteration's whole trace is one status check followed by
the success print, so no further check and no delay happen — and when the
first check completes, `upload_to_vector_store` returns the created vector
store. -/
theorem claim_C4 (env : Env) (fid st0 nm : String) (k fuel : Nat) :
    (env.statuses k = "completed" →
      pollLoop env fid k (fuel + 1) =
        ([Event.pollCheck env.vsFileId env.vsId,
          Event.print "File batch completed successfully."], PollOutcome.completed)) ∧
    (env.statuses 0 = "completed" →
      (upload_to_vector_store env st0 nm (fuel + 1)).result = UpResult.store env.vsId) := by
  constructor
  · intro h
    exact pollLoop_completed env fid k fuel h
  · intro h
    by_cases h0 : st0 = "" <;>
      simp [upload_to_vector_store, h0, pollLoop_completed env _ 0 fuel h]

/-- C4 witness: a run whose first poll reports "completed". -/
theorem claim_C4_witness :
    envDone.statuses 0 = "completed" ∧
    pollLoop envDone "file-1" 0 1 =
      ([Event.pollCheck "vsf-1" "vs-1", Event.print "File batch completed successfully."],
        PollOutcome.completed) ∧
    (upload_to_vector_store envDone "" "Travel Brochure" 1).result = UpResult.store "vs-1" :=
  ⟨rfl, (claim_C4 envDone "file-1" "" "Travel Brochure" 0 0).1 rfl,
    (claim_C4 envDone "file-1" "" "Travel Brochure" 0 0).2 rfl⟩

/-- C5: on a poll result with status "failed", that polling run performs
exactly one status check (none afterwards), prints the failure together with
the error detail the service provided, triggers cleanup of the vector store
associated with the batch, and does not report success; the surrounding
upload aborts without returning a vector store. -/
theorem claim_C5 (env : Env) (fid st0 nm : String) (k fuel : Nat)
    (h : env.statuses k = "failed") :
    countChecks (pollLoop env fid k (fuel + 1)).1 = 1 ∧
    Event.print s!"File batch failed. {env.lastError}" ∈ (pollLoop env fid k (fuel + 1)).1 ∧
    Event.vsDelete env.vsId ∈ (pollLoop env fid k (fuel + 1)).1 ∧
    (pollLoop env fid k (fuel + 1)).2 ≠ PollOutcome.completed ∧
    (pollLoop env fid k (fuel + 1)).2 ≠ PollOutcome.running ∧
    (env.statuses 0 = "failed" →
      ∀ v, (upload_to_vector_store env st0 nm (fuel + 1)).result ≠ UpResult.store v) := by
  rw [pollLoop_failed env fid k fuel h]
  have hc := cleanup_countChecks env fid [env.vsId] []
  refine ⟨?_, ?_, ?_, ?_, ?_, ?_⟩
  · simp only [countChecks, List.filter_cons] at hc ⊢
    simp [isPollCheck, hc]
  · simp
  · simp only [List.mem_cons]
    exact Or.inr (Or.inr (cleanup_mem_vsDelete env fid [env.vsId] [] env.vsId (by simp)))
  · rw [cleanup_result]
    by_cases hf : env.fileDeleteFails fid <;> simp [hf]
  · rw [cleanup_result]
    by_cases hf : env.fileDeleteFails fid <;> simp [hf]
  · intro h0 v
    by_cases hst : st0 = "" <;>
      · simp [upload_to_vector_store, hst, pollLoop_failed env _ 0 fuel h0, cleanup_result]
        by_cases hf : env.fileDeleteFails (if st0 = "" then env.newFileId else st0) <;>
          simp_all

/-- C5 witness: a run whose first poll reports "failed". -/
theorem claim_C5_witness :
    envFailed.statuses 0 = "failed" ∧
    countChecks (pollLoop envFailed "file-1" 0 1).1 = 1 ∧
    (pollLoop envFailed "file-1" 0 1).2 ≠ PollOutcome.completed :=
  ⟨rfl, (claim_C5 envFailed "file-1" "" "Travel Brochure" 0 0 rfl).1,
    (claim_C5 envFailed "file-1" "" "Travel Brochure" 0 0 rfl).2.2.2.1⟩

/-- C7: for a job reporting "in_progress", "in_progress", "completed" on
three successive checks, the poller performs exactly three status checks and
exactly two delays and terminates successfully on the third check. -/
theorem claim_C7 :
    countChecks (pollLoop envC7 "file-1" 0 10).1 = 3 ∧
    countSleeps (pollLoop envC7 "file-1" 0 10).1 = 2 ∧
    (pollLoop envC7 "file-1" 0 10).2 = PollOutcome.completed := by decide

/-- C9: only the exact strings "completed" and "failed" are terminal: for a
poll result with any other status (e.g. the vendor terminal status
"cancelled"), the iteration records the status, sleeps 5, continues the loop
unchanged, and — given another iteration of fuel — issues a further status
check. -/
theorem claim_C9 (env : Env) (fid : String) (k fuel : Nat)
    (h1 : env.statuses k ≠ "completed") (h2 : env.statuses k ≠ "failed") :
    (pollLoop env fid k (fuel + 1)).1 =
      Event.pollCheck env.vsFileId env.vsId ::
        Event.print s!"File batch status: {env.statuses k}" :: Event.sleep 5 ::
        (pollLoop env fid (k + 1) fuel).1 ∧
    (pollLoop env fid k (fuel + 1)).2 = (pollLoop env fid (k + 1) fuel).2 ∧
    2 ≤ countChecks (pollLoop env fid k (fuel + 1 + 1)).1 := by
  refine ⟨by rw [pollLoop_other env fid k fuel h1 h2],
    by rw [pollLoop_other env fid k fuel h1 h2], ?_⟩
  rw [pollLoop_other env fid k (fuel + 1) h1 h2]
  have hpos := pollLoop_checks_pos env fid (k + 1) fuel
  simp only [countChecks, List.filter_cons] at hpos ⊢
  simp only [isPollCheck]
  simp at hpos ⊢
  omega

/-- C9 witness: the vendor terminal status "cancelled" is treated as still
in progress. -/
theorem claim_C9_witness :
    envCancel.statuses 0 ≠ "completed" ∧ envCancel.statuses 0 ≠ "failed" ∧
    (pollLoop envCancel "file-1" 0 1).2 = (pollLoop envCancel "file-1" 1 0).2 ∧
    2 ≤ countChecks (pollLoop envCancel "file-1" 0 2).1 :=
  ⟨by simp [envCancel, baseEnv], by simp [envCancel, baseEnv],
    (claim_C9 envCancel "file-1" 0 0 (by simp [envCancel, baseEnv])
      (by simp [envCancel, baseEnv])).2.1,
    (claim_C9 envCancel "file-1" 0 0 (by simp [envCancel, baseEnv])
      (by simp [envCancel, baseEnv])).2.2⟩

/-- C6: when no poll ever reports a terminal status, the loop never ends —
after any number of iterations it is still running — and every iteration
performs exactly one status check and one delay of exactly 5 time units. -/
theorem claim_C6 (env : Env) (fid : String)
    (h : ∀ j, env.statuses j ≠ "completed" ∧ env.statuses j ≠ "failed") :
    ∀ fuel k, (pollLoop env fid k fuel).2 = PollOutcome.running ∧
      countChecks (pollLoop env fid k fuel).1 = fuel ∧
      countSleeps (pollLoop env fid k fuel).1 = fuel ∧
      ∀ n, Event.sleep n ∈ (pollLoop env fid k fuel).1 → n = 5 := by
  intro fuel
  induction fuel with
  | zero =>
      intro k
      exact ⟨rfl, rfl, rfl, fun n hn => by cases hn⟩
  | succ m ih =>
      intro k
      obtain ⟨ih1, ih2, ih3, ih4⟩ := ih (k + 1)
      rw [pollLoop_other env fid k m (h k).1 (h k).2]
      refine ⟨ih1, ?_, ?_, ?_⟩
      · simp only [countChecks, List.filter_cons] at ih2 ⊢
        simp only [isPollCheck, isSleep]
        simp at ih2 ⊢
        omega
      · simp only [countSleeps, List.filter_cons] at ih3 ⊢
        simp only [isPollCheck, isSleep]
        simp at ih3 ⊢
        omega
      · intro n hn
        simp only [List.mem_cons] at hn
        rcases hn with h1 | h1 | h1 | h1
        · cases h1
        · cases h1
        · cases h1; rfl
        · exact ih4 n h1

/-- C6 witness: a job stuck at "in_progress" is still running after three
iterations, with one check and one delay per iteration. -/
theorem claim_C6_witness :
    (pollLoop envLoop "file-1" 0 3).2 = PollOutcome.running ∧
    countChecks (pollLoop envLoop "file-1" 0 3).1 = 3 ∧
    countSleeps (pollLoop envLoop "file-1" 0 3).1 = 3 :=
  ⟨(claim_C6 envLoop "file-1" envLoop_nonterminal 3 0).1,
    (claim_C6 envLoop "file-1" envLoop_nonterminal 3 0).2.1,
    (claim_C6 envLoop "file-1" envLoop_nonterminal 3 0).2.2.1⟩

/-- C8: if the configured pre-existing file id is non-empty, no file upload
is performed and the configured id is used for the batch attach and kept as
the process-wide global; if it is empty, exactly one upload is performed,
the returned id is used for the batch attach, and it is stored into the
process-wide global. -/
theorem claim_C8 (env : Env) (st0 nm : String) (fuel : Nat) :
    (st0 ≠ "" →
      countUploads (upload_to_vector_store env st0 nm fuel).trace = 0 ∧
      Event.vsFilesCreate env.vsId st0 ∈ (upload_to_vector_store env st0 nm fuel).trace ∧
      (upload_to_vector_store env st0 nm fuel).newGlobal = st0) ∧
    (st0 = "" →
      countUploads (upload_to_vector_store env st0 nm fuel).trace = 1 ∧
      Event.vsFilesCreate env.vsId env.newFileId ∈
        (upload_to_vector_store env st0 nm fuel).trace ∧
      (upload_to_vector_store env st0 nm fuel).newGlobal = env.newFileId) := by
  constructor
  · intro h0
    have hp := pollLoop_countUploads env st0 fuel 0
    simp only [countUploads, List.filter_cons] at hp ⊢
    refine ⟨?_, ?_, ?_⟩
    · simp [upload_to_vector_store, h0, List.filter_append, List.filter_cons, isFilesCreate]
      simp [countUploads] at hp
      exact hp
    · simp [upload_to_vector_store, h0, List.mem_append]
    · simp [upload_to_vector_store, h0]
  · intro h0
    have hp := pollLoop_countUploads env env.newFileId fuel 0
    refine ⟨?_, ?_, ?_⟩
    · simp [upload_to_vector_store, h0, countUploads, List.filter_append, List.filter_cons,
        isFilesCreate]
      simp [countUploads] at hp
      exact hp
    · simp [upload_to_vector_store, h0, List.mem_append]
    · simp [upload_to_vector_store, h0]

/-- C8 witness: with a configured id "file-ext" no upload happens and the id
is kept; with no configured id exactly one upload happens and the returned
id "file-1" becomes the global. -/
theorem claim_C8_witness :
    ("file-ext" ≠ "" ∧
      countUploads (upload_to_vector_store envDone "file-ext" "Travel Brochure" 1).trace = 0 ∧
      (upload_to_vector_store envDone "file-ext" "Travel Brochure" 1).newGlobal = "file-ext") ∧
    (countUploads (upload_to_vector_store envDone "" "Travel Brochure" 1).trace = 1 ∧
      (upload_to_vector_store envDone "" "Travel Brochure" 1).newGlobal = "file-1") :=
  ⟨⟨by decide,
      ((claim_C8 envDone "file-ext" "Travel Brochure" 1).1 (by decide)).1,
      ((claim_C8 envDone "file-ext" "Travel Brochure" 1).1 (by decide)).2.2⟩,
    ⟨((claim_C8 envDone "" "Travel Brochure" 1).2 rfl).1,
      ((claim_C8 envDone "" "Travel Brochure" 1).2 rfl).2.2⟩⟩

/-- C3 (counterexample): with a batch that reports "failed" and every
deletion succeeding, the aborted flow leaves the vector-store variable
holding None, and the final cleanup call outside the try block raises an
uncaught AttributeError: main crashes instead of catching and printing the
failure. -/
theorem claim_C3_counterexample :
    (main envFailed 1).2 =
      MainResult.crashed "AttributeError: NoneType has no attribute id" := by decide

/-- C3 (amended): failures raised inside the try block (the upload flow
through printing the response) are caught there and reported as plain text
via "An error occurred: ...", but the final cleanup call sits outside the
try block, so main can still crash afterwards: when the upload raised, the
cleanup line's reference to the never-assigned vector-store variable raises
an uncaught NameError. -/
theorem claim_C3 (env : Env) (fuel : Nat) (e : String)
    (h : (upload_to_vector_store env env.initialFileId "Travel Brochure" fuel).result =
      UpResult.raised e) :
    (main env fuel).1 =
      (upload_to_vector_store env env.initialFileId "Travel Brochure" fuel).trace ++
        [Event.print s!"An error occurred: {e}"] ∧
    (main env fuel).2 = MainResult.crashed "NameError: vector_store is not defined" := by
  constructor <;> simp [main, h]

/-- C3 witness: a failed batch whose cleanup's file deletion raises makes
the upload raise; main catches and prints it, then crashes on the out-of-try
cleanup line. -/
theorem claim_C3_witness :
    (upload_to_vector_store envRaise envRaise.initialFileId "Travel Brochure" 1).result =
      UpResult.raised "files.delete raised for file-1" ∧
    (main envRaise 1).2 = MainResult.crashed "NameError: vector_store is not defined" :=
  ⟨by decide, (claim_C3 envRaise 1 "files.delete raised for file-1" (by decide)).2⟩

end AzureVS
